import Mathlib

/-!
Shallow embedding of `core/service_core.go` from the `fx` repository.

The file models the `serviceCore` struct (the spec's HostContext), its
accessors, the mutex-guarded lazy metrics-scope initialization in
`Metrics()`, and the `ServiceHostContainer` embedding helper.

Modelling conventions:
* Go interface references that may be `nil` become `Option` values
  (`nil` = `none`).
* `tally.Scope` allocation identity is made explicit: every call to
  `tally.NewRootScope` consumes a fresh natural-number identity from an
  allocation counter that is threaded through stateful operations, so
  "exactly one scope is constructed" is the statement that the counter
  advanced by exactly one.
* `Metrics()` holds `scopeMux` for its whole body, so every concurrent
  schedule of `Metrics()` calls is equivalent to some serialization of
  the calls; the model therefore runs operations as an atomic sequence
  (`run`, `runOps`, `runTrace`, `runEvts`).
* Opaque collaborator capabilities (config provider, logger, observer,
  log configuration) are black boxes carrying only an identity.
-/

namespace ServiceCore

/-- Opaque capability reference: `config.ConfigurationProvider` (external
collaborator, treated as a black box carrying only its identity). -/
structure ConfigurationProvider where
  capId : Nat
deriving DecidableEq, Repr

/-- Opaque capability reference: the `Observer` extension hook. -/
structure Observer where
  capId : Nat
deriving DecidableEq, Repr

/-- Opaque capability reference: `ulog.Log` structured logger. -/
structure Log where
  capId : Nat
deriving DecidableEq, Repr

/-- Opaque value: `ulog.Configuration` (never read by this core). -/
structure LogConfiguration where
  capId : Nat
deriving DecidableEq, Repr

/-- Modelled from the spec: `ServiceState` is defined elsewhere in the
repository; the spec describes it as an enum of process-defined lifecycle
states set by the owning process. Only distinctness and equality of states
matter here. -/
inductive ServiceState where
  | created
  | starting
  | running
  | stopping
  | stopped
deriving DecidableEq, Repr

/-- Go: `tally.StatsReporter`: either the `tally.NullStatsReporter` used by the
lazy initialization, or some externally supplied backend. -/
inductive StatsReporter where
  | nullStatsReporter
  | backend (capId : Nat)
deriving DecidableEq, Repr

/-- A `tally.Scope` instance. `scopeId` models reference identity (the Go
pointer): two scopes returned by distinct `tally.NewRootScope` calls have
distinct `scopeId`s. The remaining fields record the constructor
arguments. -/
structure Scope where
  scopeId : Nat
  pfx : String
  tags : List (String × String)
  reporter : StatsReporter
  intervalNs : Nat
deriving DecidableEq, Repr

namespace tally

/-- Go: `time.Second` in nanoseconds (Go `time.Duration` units). -/
def nsPerSecond : Nat := 1000000000

/-- Go: `tally.NewRootScope pfx tags reporter interval`: allocates a fresh
scope. `fresh` is the next unused reference identity; the returned counter
is `fresh + 1`, recording that exactly one allocation happened. -/
def NewRootScope (pfx : String) (tags : List (String × String))
    (reporter : StatsReporter) (intervalNs : Nat) (fresh : Nat) :
    Scope × Nat :=
  (⟨fresh, pfx, tags, reporter, intervalNs⟩, fresh + 1)

end tally

/-- The scope built by `Metrics()` on first access when `fresh` is the next
allocation identity: `tally.NewRootScope("", nil, tally.NullStatsReporter,
time.Second)`. -/
def nullScopeAt (fresh : Nat) : Scope :=
  ⟨fresh, "", [], StatsReporter.nullStatsReporter, tally.nsPerSecond⟩

/-- Go: `serviceConfig` is declared outside `src/`; modelled from its use in
the accessors of `service_core.go` and the spec's HostContext identity
fields (name, description, owner, roles). -/
structure serviceConfig where
  ServiceName : String
  ServiceDescription : String
  ServiceOwner : String
  ServiceRoles : List String
deriving DecidableEq, Repr

/-- The `serviceCore` struct. The `scopeMux` mutex is not a field of the
model: it guards the whole body of `Metrics()`, which the model reflects by
treating each operation as atomic (see `run`). `map[string]interface{}` is
modelled as an association list from strings to opaque values. -/
structure serviceCore where
  standardConfig : serviceConfig
  roles : List String
  state : ServiceState
  configProvider : Option ConfigurationProvider
  scope : Option Scope
  observer : Option Observer
  items : List (String × Nat)
  logConfig : Option LogConfiguration
  log : Option Log
deriving DecidableEq, Repr

/-- Go: `func (s *serviceCore) Name() string { return s.standardConfig.ServiceName }` -/
def serviceCore.Name (s : serviceCore) : String :=
  s.standardConfig.ServiceName

/-- Go: `func (s *serviceCore) Description() string` -/
def serviceCore.Description (s : serviceCore) : String :=
  s.standardConfig.ServiceDescription

/-- Go: `func (s *serviceCore) Owner() string` — note: a method on `serviceCore`
but not a member of the `ServiceHost` interface. -/
def serviceCore.Owner (s : serviceCore) : String :=
  s.standardConfig.ServiceOwner

/-- Go: `func (s *serviceCore) State() ServiceState { return s.state }` -/
def serviceCore.State (s : serviceCore) : ServiceState :=
  s.state

/-- Go: `func (s *serviceCore) Roles() []string { return s.standardConfig.ServiceRoles }` -/
def serviceCore.Roles (s : serviceCore) : List String :=
  s.standardConfig.ServiceRoles

/-- Go: `func (s *serviceCore) Items() map[string]interface{} { return s.items }` -/
def serviceCore.Items (s : serviceCore) : List (String × Nat) :=
  s.items

/-- Go: `func (s *serviceCore) Metrics() tally.Scope`: the whole body runs under
`s.scopeMux`, so it is modelled as one atomic transformation. If the slot
is nil, construct `tally.NewRootScope("", nil, tally.NullStatsReporter,
time.Second)` and store it; return the stored scope. Returns the scope, the
updated core, and the updated allocation counter. -/
def serviceCore.Metrics (s : serviceCore) (fresh : Nat) :
    Scope × serviceCore × Nat :=
  match s.scope with
  | some sc => (sc, s, fresh)
  | none =>
      let alloc := tally.NewRootScope "" [] StatsReporter.nullStatsReporter
        tally.nsPerSecond fresh
      (alloc.1, { s with scope := some alloc.1 }, alloc.2)

/-- Go: `func (s *serviceCore) Observer() Observer { return s.observer }` -/
def serviceCore.Observer (s : serviceCore) : Option Observer :=
  s.observer

/-- Go: `func (s *serviceCore) Config() config.ConfigurationProvider` -/
def serviceCore.Config (s : serviceCore) : Option ConfigurationProvider :=
  s.configProvider

/-- Go: `func (s *serviceCore) Logger() ulog.Log { return s.log }` -/
def serviceCore.Logger (s : serviceCore) : Option Log :=
  s.log

/-- Modelled from the spec: the lifecycle-state write performed by the
single owning writer. The writer of the `state` field lives outside
`service_core.go` (the spec: "set by the owning process during lifecycle
transitions"). -/
def setState (s : serviceCore) (v : ServiceState) : serviceCore :=
  { s with state := v }

/-- One public operation of the `ServiceHost` contract, plus `Owner` (a
method on `serviceCore` even though it is absent from the interface). -/
inductive Op where
  | name
  | description
  | owner
  | roles
  | stateOp
  | metrics
  | observer
  | config
  | items
  | logger
deriving DecidableEq, Repr

/-- Result of one public operation. -/
inductive Result where
  | str (v : String)
  | strs (v : List String)
  | st (v : ServiceState)
  | scope (v : Scope)
  | obs (v : Option Observer)
  | cfg (v : Option ConfigurationProvider)
  | itemsR (v : List (String × Nat))
  | logR (v : Option Log)
deriving DecidableEq, Repr

/-- Execute one public operation atomically (each Go method body either is
a plain read or, for `Metrics`, runs entirely under `scopeMux`). Returns
the result, the updated core, and the updated allocation counter. -/
def run (s : serviceCore) (fresh : Nat) : Op → Result × serviceCore × Nat
  | Op.name => (Result.str s.Name, s, fresh)
  | Op.description => (Result.str s.Description, s, fresh)
  | Op.owner => (Result.str s.Owner, s, fresh)
  | Op.roles => (Result.strs s.Roles, s, fresh)
  | Op.stateOp => (Result.st s.State, s, fresh)
  | Op.metrics =>
      let out := s.Metrics fresh
      (Result.scope out.1, out.2.1, out.2.2)
  | Op.observer => (Result.obs s.Observer, s, fresh)
  | Op.config => (Result.cfg s.Config, s, fresh)
  | Op.items => (Result.itemsR s.Items, s, fresh)
  | Op.logger => (Result.logR s.Logger, s, fresh)

/-- Run a sequence of public operations, keeping only the final state. -/
def runOps (s : serviceCore) (fresh : Nat) : List Op → serviceCore × Nat
  | [] => (s, fresh)
  | o :: os =>
      let st1 := run s fresh o
      runOps st1.2.1 st1.2.2 os

/-- Run a sequence of public operations, collecting every result (one per
caller in a serialized concurrent schedule). -/
def runTrace (s : serviceCore) (fresh : Nat) :
    List Op → List Result × serviceCore × Nat
  | [] => ([], s, fresh)
  | o :: os =>
      let st1 := run s fresh o
      let rest := runTrace st1.2.1 st1.2.2 os
      (st1.1 :: rest.1, rest.2.1, rest.2.2)

/-- A lifetime event of a HostContext: either a public operation or the
owning process writing the lifecycle state. -/
inductive Evt where
  | op (o : Op)
  | setSt (v : ServiceState)
deriving DecidableEq, Repr

/-- Execute one lifetime event. -/
def runEvt (s : serviceCore) (fresh : Nat) : Evt → serviceCore × Nat
  | Evt.op o =>
      let out := run s fresh o
      (out.2.1, out.2.2)
  | Evt.setSt v => (setState s v, fresh)

/-- Execute a sequence of lifetime events. -/
def runEvts (s : serviceCore) (fresh : Nat) : List Evt → serviceCore × Nat
  | [] => (s, fresh)
  | e :: es =>
      let out := runEvt s fresh e
      runEvts out.1 out.2 es

/-- The view of a `serviceCore` through the `ServiceHost` interface: the
interface declares exactly `Name, Description, Roles, State, Metrics,
Observer, Config, Items, Logger` — `Owner` is not a member. The `scope`
slot is the state that `Metrics` reads and fills. -/
structure ServiceHostView where
  name : String
  description : String
  roles : List String
  state : ServiceState
  scope : Option Scope
  observer : Option Observer
  config : Option ConfigurationProvider
  items : List (String × Nat)
  log : Option Log
deriving DecidableEq, Repr

/-- Coerce a `serviceCore` to the `ServiceHost` interface (the erasure that
happens when a `*serviceCore` is stored in a `ServiceHost` variable). -/
def serviceCore.toHost (s : serviceCore) : ServiceHostView :=
  ⟨s.Name, s.Description, s.Roles, s.State, s.scope, s.Observer, s.Config,
    s.Items, s.Logger⟩

/-- Go: `ServiceHostContainer` embeds the `ServiceHost` interface; before
`SetContainer` the embedded reference is nil. -/
structure ServiceHostContainer where
  ServiceHost : Option ServiceHostView
deriving DecidableEq, Repr

/-- Go: `func (s *ServiceHostContainer) SetContainer(sh ServiceHost) { s.ServiceHost = sh }` -/
def ServiceHostContainer.SetContainer (c : ServiceHostContainer)
    (sh : ServiceHostView) : ServiceHostContainer :=
  { c with ServiceHost := some sh }

/-- Delegated `Name()` on the container (nil embedded interface = `none`,
modelling the Go nil-dereference panic as undefinedness). -/
def ServiceHostContainer.Name (c : ServiceHostContainer) : Option String :=
  c.ServiceHost.map ServiceHostView.name

/-- Delegated `Description()` on the container. -/
def ServiceHostContainer.Description (c : ServiceHostContainer) :
    Option String :=
  c.ServiceHost.map ServiceHostView.description

/-- Delegated `Roles()` on the container. -/
def ServiceHostContainer.Roles (c : ServiceHostContainer) :
    Option (List String) :=
  c.ServiceHost.map ServiceHostView.roles

/-- Delegated `State()` on the container. -/
def ServiceHostContainer.State (c : ServiceHostContainer) :
    Option ServiceState :=
  c.ServiceHost.map ServiceHostView.state

/-- Delegated `Observer()` on the container. -/
def ServiceHostContainer.Observer (c : ServiceHostContainer) :
    Option (Option Observer) :=
  c.ServiceHost.map ServiceHostView.observer

/-- Delegated `Config()` on the container. -/
def ServiceHostContainer.Config (c : ServiceHostContainer) :
    Option (Option ConfigurationProvider) :=
  c.ServiceHost.map ServiceHostView.config

/-- Delegated `Items()` on the container. -/
def ServiceHostContainer.Items (c : ServiceHostContainer) :
    Option (List (String × Nat)) :=
  c.ServiceHost.map ServiceHostView.items

/-- Delegated `Logger()` on the container. -/
def ServiceHostContainer.Logger (c : ServiceHostContainer) :
    Option (Option Log) :=
  c.ServiceHost.map ServiceHostView.log

/-- A concrete core with an empty scope slot and no optional capabilities. -/
def core0 : serviceCore :=
  ⟨⟨"svc", "a service", "team", ["worker"]⟩, [], ServiceState.created,
    none, none, none, [], none, none⟩

/-- A concrete core whose scope slot is already filled. -/
def coreWithScope : serviceCore :=
  { core0 with scope := some (nullScopeAt 0) }

/-- Scenario A core: name "checkout", roles ["writer","api"]. -/
def checkoutCore : serviceCore :=
  ⟨⟨"checkout", "", "", ["writer", "api"]⟩, ["writer", "api"],
    ServiceState.created, none, none, none, [], none, none⟩

/-- Two cores that differ only in the owner string. -/
def ownerCoreA : serviceCore :=
  ⟨⟨"svc", "d", "alice", ["r"]⟩, [], ServiceState.running, none, none,
    none, [], none, none⟩

/-- See `ownerCoreA`: identical except for the owner string. -/
def ownerCoreB : serviceCore :=
  ⟨⟨"svc", "d", "bob", ["r"]⟩, [], ServiceState.running, none, none,
    none, [], none, none⟩

/-- An empty container (embedded `ServiceHost` is nil). -/
def emptyContainer : ServiceHostContainer := ⟨none⟩

/-! ## Helper lemmas -/

/-- Executing one lifetime event preserves every field except `scope` and
`state`. -/
theorem runEvt_preserves_immutable (s : serviceCore) (f : Nat) (e : Evt) :
    ((runEvt s f e).1).standardConfig = s.standardConfig ∧
    ((runEvt s f e).1).roles = s.roles ∧
    ((runEvt s f e).1).configProvider = s.configProvider ∧
    ((runEvt s f e).1).observer = s.observer ∧
    ((runEvt s f e).1).items = s.items ∧
    ((runEvt s f e).1).logConfig = s.logConfig ∧
    ((runEvt s f e).1).log = s.log := by
  cases e with
  | op o =>
      cases o <;> cases h : s.scope <;>
        simp [runEvt, run, serviceCore.Metrics, h, tally.NewRootScope]
  | setSt v => simp [runEvt, setState]

/-- Executing any sequence of lifetime events preserves every field except
`scope` and `state`. -/
theorem runEvts_preserves_immutable (evts : List Evt) :
    ∀ (s : serviceCore) (f : Nat),
    ((runEvts s f evts).1).standardConfig = s.standardConfig ∧
    ((runEvts s f evts).1).roles = s.roles ∧
    ((runEvts s f evts).1).configProvider = s.configProvider ∧
    ((runEvts s f evts).1).observer = s.observer ∧
    ((runEvts s f evts).1).items = s.items ∧
    ((runEvts s f evts).1).logConfig = s.logConfig ∧
    ((runEvts s f evts).1).log = s.log := by
  induction evts with
  | nil => intro s f; exact ⟨rfl, rfl, rfl, rfl, rfl, rfl, rfl⟩
  | cons e es ih =>
      intro s f
      obtain ⟨a1, a2, a3, a4, a5, a6, a7⟩ := runEvt_preserves_immutable s f e
      obtain ⟨b1, b2, b3, b4, b5, b6, b7⟩ :=
        ih (runEvt s f e).1 (runEvt s f e).2
      simp only [runEvts]
      exact ⟨b1.trans a1, b2.trans a2, b3.trans a3, b4.trans a4,
        b5.trans a5, b6.trans a6, b7.trans a7⟩

/-- Once the scope slot holds `x`, no lifetime event changes it. -/
theorem runEvt_scope_stable (s : serviceCore) (f : Nat) (e : Evt)
    (x : Scope) (h : s.scope = some x) :
    ((runEvt s f e).1).scope = some x := by
  cases e with
  | op o => cases o <;> simp [runEvt, run, serviceCore.Metrics, h]
  | setSt v => simp [runEvt, setState, h]

/-- Once the scope slot holds `x`, no sequence of lifetime events changes
it. -/
theorem runEvts_scope_stable (evts : List Evt) :
    ∀ (s : serviceCore) (f : Nat) (x : Scope), s.scope = some x →
    ((runEvts s f evts).1).scope = some x := by
  induction evts with
  | nil => intro s f x h; simpa [runEvts] using h
  | cons e es ih =>
      intro s f x h
      simp only [runEvts]
      exact ih _ _ _ (runEvt_scope_stable s f e x h)

/-- With a filled scope slot, a run of `Metrics()` calls returns the cached
scope every time, changes nothing, and allocates nothing. -/
theorem runTrace_metrics_cached (k : Nat) :
    ∀ (s : serviceCore) (f : Nat) (x : Scope), s.scope = some x →
    runTrace s f (List.replicate k Op.metrics) =
      (List.replicate k (Result.scope x), s, f) := by
  induction k with
  | zero => intro s f x h; simp [runTrace]
  | succ n ih =>
      intro s f x h
      have hr := ih s f x h
      simp [List.replicate_succ, runTrace, run, serviceCore.Metrics, h, hr]

/-- Public operations never write the lifecycle-state field. -/
theorem runOps_preserves_state (ops : List Op) :
    ∀ (s : serviceCore) (f : Nat),
    ((runOps s f ops).1).state = s.state := by
  induction ops with
  | nil => intro s f; rfl
  | cons o os ih =>
      intro s f
      have h1 : ((run s f o).2.1).state = s.state := by
        cases o <;> cases h : s.scope <;>
          simp [run, serviceCore.Metrics, h, tally.NewRootScope]
      simp only [runOps]
      exact (ih (run s f o).2.1 (run s f o).2.2).trans h1

/-! ## Claim theorems -/

/-- C1: every `Metrics()` call returns a scope (non-nil: the cached scope
when the slot is filled, the freshly constructed no-op null-reporting scope
when it is empty), and afterwards the slot holds exactly the returned
scope — so a filled slot is returned unchanged and an empty slot is filled
with the constructed scope. -/
theorem metrics_lazy_init (s : serviceCore) (f : Nat) :
    (s.Metrics f).1 = s.scope.getD (nullScopeAt f) ∧
    (s.Metrics f).2.1 = { s with scope := some ((s.Metrics f).1) } := by
  cases s with
  | mk cfg rl st cp sc ob it lc lg =>
      cases sc <;>
        simp [serviceCore.Metrics, nullScopeAt, tally.NewRootScope]

/-- C2: once the scope slot holds a scope `x` (set by setup or by a first
`Metrics()` call), every subsequent `Metrics()` call returns exactly `x`,
leaves the core unchanged, allocates nothing, and the slot keeps the same
identity across every possible remaining lifetime of the HostContext. -/
theorem metrics_referential_stability (s : serviceCore) (x : Scope)
    (f : Nat) (h : s.scope = some x) :
    (s.Metrics f).1 = x ∧ (s.Metrics f).2.1 = s ∧ (s.Metrics f).2.2 = f ∧
    ∀ (evts : List Evt) (f0 : Nat),
      ((runEvts s f0 evts).1).scope = some x := by
  refine ⟨?_, ?_, ?_, ?_⟩
  · simp [serviceCore.Metrics, h]
  · simp [serviceCore.Metrics, h]
  · simp [serviceCore.Metrics, h]
  · exact fun evts f0 => runEvts_scope_stable evts s f0 x h

/-- Witness for C2 at a concrete core whose slot is already filled. -/
theorem metrics_referential_stability_witness :
    coreWithScope.scope = some (nullScopeAt 0) ∧
    (coreWithScope.Metrics 7).1 = nullScopeAt 0 ∧
    ((runEvts coreWithScope 3
        [Evt.setSt ServiceState.running, Evt.op Op.metrics]).1).scope =
      some (nullScopeAt 0) :=
  ⟨rfl,
    (metrics_referential_stability coreWithScope (nullScopeAt 0) 7 rfl).1,
    (metrics_referential_stability coreWithScope (nullScopeAt 0) 7
      rfl).2.2.2 [Evt.setSt ServiceState.running, Evt.op Op.metrics] 3⟩

/-- C3: for `N ≥ 1` first-time callers of `Metrics()` on a core with no
pre-configured scope — which the mutex serializes into a sequence of `N`
calls — every caller gets the same scope instance, the slot ends holding
that instance, and the allocation counter advances by exactly one (exactly
one no-op scope is constructed; every call after the initializing one reads
the stored scope). -/
theorem metrics_at_most_once (s : serviceCore) (f N : Nat)
    (h : s.scope = none) (hN : 1 ≤ N) :
    (runTrace s f (List.replicate N Op.metrics)).1 =
      List.replicate N (Result.scope (nullScopeAt f)) ∧
    (runTrace s f (List.replicate N Op.metrics)).2.1 =
      { s with scope := some (nullScopeAt f) } ∧
    (runTrace s f (List.replicate N Op.metrics)).2.2 = f + 1 := by
  obtain ⟨k, rfl⟩ : ∃ k, N = k + 1 := ⟨N - 1, by omega⟩
  have h1 : run s f Op.metrics =
      (Result.scope (nullScopeAt f),
        { s with scope := some (nullScopeAt f) }, f + 1) := by
    simp [run, serviceCore.Metrics, h, tally.NewRootScope, nullScopeAt]
  have h2 := runTrace_metrics_cached k
    { s with scope := some (nullScopeAt f) } (f + 1) (nullScopeAt f) rfl
  simp [List.replicate_succ, runTrace, h1, h2]

/-- Witness for C3: three serialized first-time callers on `core0`. -/
theorem metrics_at_most_once_witness :
    core0.scope = none ∧ 1 ≤ 3 ∧
    (runTrace core0 0 (List.replicate 3 Op.metrics)).1 =
      List.replicate 3 (Result.scope (nullScopeAt 0)) ∧
    (runTrace core0 0 (List.replicate 3 Op.metrics)).2.2 = 0 + 1 :=
  ⟨rfl, by decide, (metrics_at_most_once core0 0 3 rfl (by decide)).1,
    (metrics_at_most_once core0 0 3 rfl (by decide)).2.2⟩

/-- C4 counterexample: `Owner()` is not a member of the `ServiceHost`
interface that `ServiceHostContainer` embeds, so it is not among the
delegated operations. Two cores that differ only in their owner string
erase to the same `ServiceHost` view and populate a container identically,
while their `Owner()` results differ — hence no container operation can
return the value of `Owner()` on the wrapped host. -/
theorem container_owner_not_delegated_cex :
    ownerCoreA.toHost = ownerCoreB.toHost ∧
    emptyContainer.SetContainer ownerCoreA.toHost =
      emptyContainer.SetContainer ownerCoreB.toHost ∧
    ownerCoreA.Owner ≠ ownerCoreB.Owner :=
  ⟨rfl, rfl, by decide⟩

/-- C4 (amended): after `SetContainer h`, every read operation declared by
the `ServiceHost` interface — `Name`, `Description`, `Roles`, `State`,
`Observer`, `Config`, `Items`, `Logger`, but not `Owner`, which the
interface omits — is available on the container by delegation and returns
the same value as calling it on `h` directly. -/
theorem container_delegates_interface_reads (c : ServiceHostContainer)
    (h : serviceCore) :
    (c.SetContainer h.toHost).Name = some h.Name ∧
    (c.SetContainer h.toHost).Description = some h.Description ∧
    (c.SetContainer h.toHost).Roles = some h.Roles ∧
    (c.SetContainer h.toHost).State = some h.State ∧
    (c.SetContainer h.toHost).Observer = some h.Observer ∧
    (c.SetContainer h.toHost).Config = some h.Config ∧
    (c.SetContainer h.toHost).Items = some h.Items ∧
    (c.SetContainer h.toHost).Logger = some h.Logger :=
  ⟨rfl, rfl, rfl, rfl, rfl, rfl, rfl, rfl⟩

/-- C5: a core constructed over any `serviceConfig` has
`Name() = ServiceName` and `Roles() = ServiceRoles` (the configured role
list); in particular the Scenario A core with name "checkout" and roles
["writer", "api"] returns exactly those. -/
theorem name_and_roles_from_config (cfg : serviceConfig)
    (rl : List String) (st : ServiceState)
    (cp : Option ConfigurationProvider) (sc : Option Scope)
    (ob : Option Observer) (it : List (String × Nat))
    (lc : Option LogConfiguration) (lg : Option Log) :
    (serviceCore.mk cfg rl st cp sc ob it lc lg).Name = cfg.ServiceName ∧
    (serviceCore.mk cfg rl st cp sc ob it lc lg).Roles =
      cfg.ServiceRoles ∧
    checkoutCore.Name = "checkout" ∧
    checkoutCore.Roles = ["writer", "api"] :=
  ⟨rfl, rfl, rfl, rfl⟩

/-- C6: across any lifetime of the HostContext (any sequence of public
operations and owner-process state writes), the values returned by
`Name()`, `Description()`, `Owner()`, `Roles()`, `Config()` and `Logger()`
never change — repeated calls are idempotent and agree with the values at
construction. -/
theorem immutable_reads_idempotent (s : serviceCore) (f : Nat)
    (evts : List Evt) :
    ((runEvts s f evts).1).Name = s.Name ∧
    ((runEvts s f evts).1).Description = s.Description ∧
    ((runEvts s f evts).1).Owner = s.Owner ∧
    ((runEvts s f evts).1).Roles = s.Roles ∧
    ((runEvts s f evts).1).Config = s.Config ∧
    ((runEvts s f evts).1).Logger = s.Logger := by
  obtain ⟨h1, h2, h3, h4, h5, h6, h7⟩ :=
    runEvts_preserves_immutable evts s f
  refine ⟨?_, ?_, ?_, ?_, ?_, ?_⟩
  · simp [serviceCore.Name, h1]
  · simp [serviceCore.Description, h1]
  · simp [serviceCore.Owner, h1]
  · simp [serviceCore.Roles, h1]
  · simp [serviceCore.Config, h3]
  · simp [serviceCore.Logger, h7]

/-- C7: every accessor is total, and a core constructed with no observer,
configuration provider, or logger returns the absent (`none`) capability
from `Observer()`, `Config()` and `Logger()` — both directly and through
the operational model — while `Metrics()` still succeeds and leaves a
non-nil scope in the slot instead of failing. -/
theorem absent_capability_safety (s : serviceCore) (f : Nat)
    (ho : s.observer = none) (hc : s.configProvider = none)
    (hl : s.log = none) :
    s.Observer = none ∧ s.Config = none ∧ s.Logger = none ∧
    (run s f Op.observer).1 = Result.obs none ∧
    (run s f Op.config).1 = Result.cfg none ∧
    (run s f Op.logger).1 = Result.logR none ∧
    (s.Metrics f).2.1.scope ≠ none := by
  refine ⟨ho, hc, hl, ?_, ?_, ?_, ?_⟩
  · simp [run, serviceCore.Observer, ho]
  · simp [run, serviceCore.Config, hc]
  · simp [run, serviceCore.Logger, hl]
  · cases s with
    | mk cfg rl st cp sc ob it lc lg =>
        cases sc <;>
          simp [serviceCore.Metrics, tally.NewRootScope]

/-- Witness for C7 at `core0`, which has no optional capabilities. -/
theorem absent_capability_safety_witness :
    core0.observer = none ∧ core0.configProvider = none ∧
    core0.log = none ∧
    (core0.Observer = none ∧ core0.Config = none ∧ core0.Logger = none ∧
      (run core0 2 Op.observer).1 = Result.obs none ∧
      (run core0 2 Op.config).1 = Result.cfg none ∧
      (run core0 2 Op.logger).1 = Result.logR none ∧
      (core0.Metrics 2).2.1.scope ≠ none) :=
  ⟨rfl, rfl, rfl, absent_capability_safety core0 2 rfl rfl rfl⟩

/-- C8: every public operation preserves every field other than the scope
slot (`Metrics()` modifies at most `scope`; name, description, owner,
roles, lifecycle state, config provider, observer, items and logger are
identical before and after), and every operation other than `Metrics()`
leaves the core completely unchanged and allocates nothing. -/
theorem metrics_only_effect (s : serviceCore) (f : Nat) (op : Op) :
    (((run s f op).2.1).standardConfig = s.standardConfig ∧
      ((run s f op).2.1).roles = s.roles ∧
      ((run s f op).2.1).state = s.state ∧
      ((run s f op).2.1).configProvider = s.configProvider ∧
      ((run s f op).2.1).observer = s.observer ∧
      ((run s f op).2.1).items = s.items ∧
      ((run s f op).2.1).logConfig = s.logConfig ∧
      ((run s f op).2.1).log = s.log) ∧
    (op ≠ Op.metrics → (run s f op).2.1 = s ∧ (run s f op).2.2 = f) := by
  constructor
  · cases op <;> cases h : s.scope <;>
      simp [run, serviceCore.Metrics, h, tally.NewRootScope]
  · intro hne
    cases op <;> first | exact absurd rfl hne | simp [run]

/-- Witness for C8 at `core0` with the non-mutating `Name()` operation. -/
theorem metrics_only_effect_witness :
    Op.name ≠ Op.metrics ∧
    ((run core0 5 Op.name).2.1 = core0 ∧ (run core0 5 Op.name).2.2 = 5) :=
  ⟨by decide, (metrics_only_effect core0 5 Op.name).2 (by decide)⟩

/-- C9: after the owning writer sets the lifecycle state to `v`, a
subsequent `State()` call returns `v` — immediately, and still after any
further sequence of public operations (which never write the state
field). -/
theorem state_read_reflects_write (s : serviceCore) (v : ServiceState)
    (f : Nat) (ops : List Op) :
    (setState s v).State = v ∧
    ((runOps (setState s v) f ops).1).State = v :=
  ⟨rfl, runOps_preserves_state ops (setState s v) f⟩

/-- C10: `Roles()` depends only on `standardConfig.ServiceRoles` and is
independent of the separate `roles` field: two cores that differ only in
the `roles` field yield the same `Roles()` result, `Roles()` reads the
config field, and no public operation returns a result that depends on the
`roles` field. -/
theorem roles_independent_of_roles_field (s : serviceCore)
    (r1 r2 : List String) (f : Nat) (op : Op) :
    serviceCore.Roles { s with roles := r1 } =
      serviceCore.Roles { s with roles := r2 } ∧
    s.Roles = s.standardConfig.ServiceRoles ∧
    (run { s with roles := r1 } f op).1 =
      (run { s with roles := r2 } f op).1 ∧
    (run { s with roles := r1 } f op).2.2 =
      (run { s with roles := r2 } f op).2.2 := by
  cases s with
  | mk cfg rl st cp sc ob it lc lg =>
      refine ⟨rfl, rfl, ?_, ?_⟩ <;>
        cases op <;> cases sc <;>
          simp [run, serviceCore.Metrics, tally.NewRootScope,
            serviceCore.Name, serviceCore.Description, serviceCore.Owner,
            serviceCore.Roles, serviceCore.State, serviceCore.Observer,
            serviceCore.Config, serviceCore.Items, serviceCore.Logger]

end ServiceCore
